import Mathlib

/-!
Verification of the news-query service and its display client.

The backend (src/backend) exposes one route, POST /api/v1/news, which reads
the single active row of the daily_news_art table through Prisma's findFirst
and returns it as JSON. The frontend (src/frontend/src/App.tsx) is a React
component with two fetch operations, a response-normalization step, and a
rotating loading message driven by a 2.5-second interval timer.

The embedding below models: the persisted rows and the findFirst query, the
route handler's success and error paths, a small JavaScript-value type (with
undefined, null, strings and objects) sufficient to express the truthiness
semantics the client's normalization relies on, and the client's state
container together with the events that drive it (fetch start, timer tick,
fetch resolution).
-/

/-! ## Data model: the persisted entity (prisma daily_news_art) -/

/-- A row of the daily_news_art table, restricted to the columns the
query service reads (headline, description, image_url, is_active). -/
structure NewsRow where
  headline : String
  description : String
  image_url : String
  is_active : Bool
deriving Repr, DecidableEq

/-- The projection selected by db.getActiveNews
(select headline, description, image_url in src/backend/src/db/queries.ts). -/
structure NewsProj where
  headline : String
  description : String
  image_url : String
deriving Repr, DecidableEq

/-- The select clause of queries.ts lines 11-15. -/
def projOf (r : NewsRow) : NewsProj :=
  { headline := r.headline, description := r.description, image_url := r.image_url }

/-- db.getActiveNews (queries.ts lines 5-18): prisma findFirst with
where is_active = true — the first row in store order whose is_active flag
is set, projected to the three selected columns; none when no row matches. -/
def getActiveNews (store : List NewsRow) : Option NewsProj :=
  (store.find? (fun r => r.is_active)).map projOf

/-- The same query with the store threaded through explicitly: findFirst is a
Prisma read operation, so the store comes back unchanged. queries.ts contains
no create/update/delete call. -/
def getActiveNewsDb (store : List NewsRow) : Option NewsProj × List NewsRow :=
  (getActiveNews store, store)

/-! ## JavaScript values

A small dynamic-value type for the JSON bodies the client manipulates:
undefined (absent property), null, strings, and objects as association
lists. Truthiness follows JavaScript: undefined, null and the empty string
are falsy; every object is truthy. -/

inductive JsVal where
  | undef : JsVal
  | jnull : JsVal
  | jstr : String → JsVal
  | jobj : List (String × JsVal) → JsVal
deriving Repr

/-- Property access `v.k`: the value stored under key k, undefined when the
key is missing or the receiver is not an object. -/
def JsVal.getField : JsVal → String → JsVal
  | JsVal.jobj fields, k =>
    match fields.find? (fun p => p.1 == k) with
    | some p => p.2
    | none => JsVal.undef
  | _, _ => JsVal.undef

/-- JavaScript truthiness for the values we model. -/
def JsVal.truthy : JsVal → Bool
  | JsVal.undef => false
  | JsVal.jnull => false
  | JsVal.jstr s => !s.isEmpty
  | JsVal.jobj _ => true

/-- The JavaScript `a || b` operator on our values. -/
def jsOr (a b : JsVal) : JsVal := if a.truthy then a else b

/-! ## The route handler (src/unnamed mainRouter, POST /api/v1/news) -/

/-- An HTTP response: status code plus JSON body. -/
structure HttpResponse where
  status : Nat
  body : JsVal
deriving Repr

/-- How res.json serializes the query result: null for no row, otherwise the
object with the three selected columns. -/
def optProjToJs : Option NewsProj → JsVal
  | none => JsVal.jnull
  | some p => JsVal.jobj
      [("headline", JsVal.jstr p.headline),
       ("description", JsVal.jstr p.description),
       ("image_url", JsVal.jstr p.image_url)]

/-- The route body given the outcome of awaiting db.getActiveNews: on success
res.json wraps the result under the getActiveNews key (status 200, the
Express default); on a storage-layer fault the catch block answers 500 with
the error's message under the error key (mainRouter lines 7-12). -/
def postNewsOutcome : Except String (Option NewsProj) → HttpResponse
  | Except.ok r =>
    { status := 200, body := JsVal.jobj [("getActiveNews", optProjToJs r)] }
  | Except.error msg =>
    { status := 500, body := JsVal.jobj [("error", JsVal.jstr msg)] }

/-- The fault-free request path: query the store, wrap the result. -/
def postNews (store : List NewsRow) : HttpResponse :=
  postNewsOutcome (Except.ok (getActiveNews store))

/-- Trace form of the handler against a sequence of available storage
outcomes: the handler awaits db.getActiveNews exactly once, so it consumes
only the first outcome; the second component counts storage calls made. -/
def postNewsAttempts
    (attempts : List (Except String (Option NewsProj))) : HttpResponse × Nat :=
  match attempts with
  | [] => (postNewsOutcome (Except.error "no storage"), 0)
  | a :: _ => (postNewsOutcome a, 1)

/-- The request path with the store threaded through, on both the success
path and the fault path: the only storage operation issued is the findFirst
read. -/
def postNewsSt (store : List NewsRow) (fault : Option String) :
    HttpResponse × List NewsRow :=
  match fault with
  | some msg => (postNewsOutcome (Except.error msg), store)
  | none =>
    let q := getActiveNewsDb store
    (postNewsOutcome (Except.ok q.1), q.2)

/-! ## The display client (src/frontend/src/App.tsx) -/

/-- The fixed ordered list of rotating loading messages
(App.tsx lines 10-21). -/
def LOADING_MESSAGES : List String :=
  ["Waking up free-tier servers...",
   "Analyzing global news sources...",
   "Consulting with AI agent...",
   "Evaluating headline impact...",
   "Checking 7-day memory buffer...",
   "Generating visual description...",
   "Creating artistic representation...",
   "Uploading to cloud storage...",
   "Finalizing selection...",
   "Almost there..."]

/-- The message at a given rotation index. -/
def loadingMessageAt (i : Nat) : String := LOADING_MESSAGES.getD i ""

/-- The client's normalized news record (the NewsData interface): field
values are JavaScript values because a missing payload field is stored as
undefined, not rejected. -/
structure NewsData where
  headline : JsVal
  description : JsVal
  imageUrl : JsVal
deriving Repr

/-- The component's state hooks (App.tsx lines 24-29) together with the
rotation index messageIndex local to the loading-message interval effect
(App.tsx lines 36-46). The interval is live exactly while loading is true:
the effect starts it when loading becomes true and its cleanup clears it
when loading becomes false. -/
structure ClientState where
  newsData : Option NewsData
  loading : Bool
  error : Option String
  lastUpdated : Option String
  loadingMessage : String
  isStaticMode : Bool
  msgIdx : Nat
deriving Repr

/-- The useState initial values. -/
def initialClientState : ClientState :=
  { newsData := none, loading := false, error := none, lastUpdated := none,
    loadingMessage := loadingMessageAt 0, isStaticMode := true, msgIdx := 0 }

/-- The normalization performed by fetchStaticNews (App.tsx lines 65-74):
unwrap with data.getActiveNews || data, then read headline, description,
and image_url || imageUrl off the unwrapped object. -/
def normalizeStatic (data : JsVal) : NewsData :=
  let newsItem := jsOr (data.getField "getActiveNews") data
  { headline := newsItem.getField "headline",
    description := newsItem.getField "description",
    imageUrl := jsOr (newsItem.getField "image_url") (newsItem.getField "imageUrl") }

/-- The normalization performed by fetchDynamicNews (App.tsx lines 103-109):
fields are read directly off the response object — there is no
data.getActiveNews || data unwrap step — and the image field is
data.image_url || data.imageUrl. -/
def normalizeDynamic (data : JsVal) : NewsData :=
  { headline := data.getField "headline",
    description := data.getField "description",
    imageUrl := jsOr (data.getField "image_url") (data.getField "imageUrl") }

/-- What a fetch call delivers back: either an HTTP response (any status) or
a rejection of the fetch itself (network failure). -/
inductive FetchOutcome where
  | httpResponse : HttpResponse → FetchOutcome
  | transportError : String → FetchOutcome
deriving Repr

/-- response.ok: status in the 2xx range. -/
def responseOk (resp : HttpResponse) : Bool :=
  decide (200 ≤ resp.status) && decide (resp.status < 300)

/-- The message of the Error thrown on !response.ok (App.tsx line 62):
a template over the numeric status; the response body is never read on
this path. -/
def httpErrorMessage (status : Nat) : String :=
  "HTTP error! status: " ++ toString status

/-- Shared prologue of fetchStaticNews and fetchDynamicNews (App.tsx lines
48-51 and 86-89): setLoading(true), setError(null), reset the loading
message to the first list entry. When loading goes false to true the
interval effect re-runs with a fresh messageIndex of 0; if loading was
already true the running interval (and its index) is untouched. -/
def beginFetch (s : ClientState) : ClientState :=
  { s with loading := true, error := none,
           loadingMessage := loadingMessageAt 0,
           msgIdx := if s.loading then s.msgIdx else 0 }

/-- One firing of the 2.5-second interval (App.tsx lines 40-43): advance
messageIndex modulo the list length and display that entry. The interval
only exists while loading is true, so the tick is a no-op otherwise. -/
def tick (s : ClientState) : ClientState :=
  if s.loading then
    let i := (s.msgIdx + 1) % LOADING_MESSAGES.length
    { s with msgIdx := i, loadingMessage := loadingMessageAt i }
  else s

/-- Completion of fetchStaticNews (App.tsx lines 53-83): a 2xx response
stores the normalized payload, records the timestamp and static mode; a
non-2xx response throws httpErrorMessage, caught and stored as the error; a
transport rejection stores its message. The finally clause clears loading
on every path, which tears the interval down. -/
def resolveStatic (now : String) (o : FetchOutcome) (s : ClientState) : ClientState :=
  match o with
  | FetchOutcome.httpResponse resp =>
    if responseOk resp then
      { s with newsData := some (normalizeStatic resp.body),
               lastUpdated := some now, isStaticMode := true, loading := false }
    else
      { s with error := some (httpErrorMessage resp.status), loading := false }
  | FetchOutcome.transportError msg =>
    { s with error := some msg, loading := false }

/-- Completion of fetchDynamicNews (App.tsx lines 91-118): as resolveStatic
but with the dynamic normalization and isStaticMode set to false. -/
def resolveDynamic (now : String) (o : FetchOutcome) (s : ClientState) : ClientState :=
  match o with
  | FetchOutcome.httpResponse resp =>
    if responseOk resp then
      { s with newsData := some (normalizeDynamic resp.body),
               lastUpdated := some now, isStaticMode := false, loading := false }
    else
      { s with error := some (httpErrorMessage resp.status), loading := false }
  | FetchOutcome.transportError msg =>
    { s with error := some msg, loading := false }

/-- Which endpoint a fetch call targets. -/
inductive FetchKind where
  | staticFetch : FetchKind
  | dynamicFetch : FetchKind
deriving Repr, DecidableEq

/-- The events that drive the component: invoking one of the two fetch
functions (the mount effect or a button click), a firing of the rotation
interval, and the asynchronous completion of an in-flight fetch. -/
inductive ClientEvent where
  | fetchStatic : ClientEvent
  | fetchDynamic : ClientEvent
  | timerTick : ClientEvent
  | staticResolved : String → FetchOutcome → ClientEvent
  | dynamicResolved : String → FetchOutcome → ClientEvent

/-- One event: the next state paired with the network requests the event
issues. Only invoking a fetch function issues a request; ticks and
resolutions never do (there is no retry logic anywhere in App.tsx). -/
def step (s : ClientState) : ClientEvent → ClientState × List FetchKind
  | ClientEvent.fetchStatic => (beginFetch s, [FetchKind.staticFetch])
  | ClientEvent.fetchDynamic => (beginFetch s, [FetchKind.dynamicFetch])
  | ClientEvent.timerTick => (tick s, [])
  | ClientEvent.staticResolved now o => (resolveStatic now o s, [])
  | ClientEvent.dynamicResolved now o => (resolveDynamic now o s, [])

/-- Run a sequence of events, collecting every request issued. -/
def run (s : ClientState) : List ClientEvent → ClientState × List FetchKind
  | [] => (s, [])
  | e :: es =>
    let p := step s e
    let q := run p.1 es
    (q.1, p.2 ++ q.2)

/-- The mount effect (App.tsx lines 122-124): useEffect with an empty
dependency array runs once and calls fetchStaticNews. -/
def mountEvents : List ClientEvent := [ClientEvent.fetchStatic]

/-! ### Rendering fallbacks (App.tsx lines 341-354 and 365-395) -/

/-- How a field value renders inside a JSX text fallback v || placeholder:
the placeholder whenever the value is falsy. -/
def renderText (v : JsVal) (placeholder : String) : String :=
  if v.truthy then
    match v with
    | JsVal.jstr t => t
    | _ => ""
  else placeholder

/-- Placeholder shown for a missing headline (App.tsx line 345). -/
def headlinePlaceholder : String := "Loading today\x27s headline..."

/-- Placeholder shown for a missing description (App.tsx line 352). -/
def descriptionPlaceholder : String :=
  "AI-generated visual description will appear here"

/-- The headline text displayed: newsData?.headline || the placeholder. -/
def renderedHeadline (s : ClientState) : String :=
  match s.newsData with
  | none => headlinePlaceholder
  | some nd => renderText nd.headline headlinePlaceholder

/-- The description text displayed: newsData?.description || the
placeholder. -/
def renderedDescription (s : ClientState) : String :=
  match s.newsData with
  | none => descriptionPlaceholder
  | some nd => renderText nd.description descriptionPlaceholder

/-- Whether the img element is rendered at all: the newsData?.imageUrl
branch of the ternary at App.tsx line 373 (when loading is false). -/
def showsImage (s : ClientState) : Bool :=
  match s.newsData with
  | none => false
  | some nd => nd.imageUrl.truthy

/-! ## Helper lemmas -/

/-- If filtering by p yields exactly one element, find? returns it. -/
theorem find?_of_filter_singleton {α : Type} (p : α → Bool) (l : List α) (a : α)
    (h : l.filter p = [a]) : l.find? p = some a := by
  induction l with
  | nil => simp at h
  | cons x xs ih =>
    by_cases hp : p x = true
    · simp [List.filter_cons, hp] at h
      obtain ⟨rfl, -⟩ := h
      simp [List.find?_cons, hp]
    · simp [List.filter_cons, hp] at h
      simp [List.find?_cons, hp, ih h]

/-- If filtering by p yields nothing, find? returns none. -/
theorem find?_of_filter_nil {α : Type} (p : α → Bool) (l : List α)
    (h : l.filter p = []) : l.find? p = none := by
  rw [List.find?_eq_none]
  exact fun x hx => List.filter_eq_nil_iff.mp h x hx

/-- Every completion path of fetchStaticNews clears loading (the finally
clause), which unmounts the rotation interval. -/
theorem resolveStatic_loading_false (now : String) (o : FetchOutcome)
    (s : ClientState) : (resolveStatic now o s).loading = false := by
  cases o with
  | httpResponse resp =>
    by_cases h : responseOk resp = true
    · simp [resolveStatic, h]
    · simp [resolveStatic, h]
  | transportError m => rfl

/-- A tick is a no-op once loading is false (the interval has been
cleared). -/
theorem tick_of_not_loading (s : ClientState) (h : s.loading = false) :
    tick s = s := by
  simp [tick, h]

/-! ## Claims -/

/-- C1: for every store containing exactly one row with is_active = true,
POST /api/v1/news answers 200 with the row's headline, description and
image_url wrapped under the getActiveNews key. -/
theorem postNews_single_active (store : List NewsRow) (r : NewsRow)
    (h : store.filter (fun x => x.is_active) = [r]) :
    postNews store =
      { status := 200,
        body := JsVal.jobj [("getActiveNews", JsVal.jobj
          [("headline", JsVal.jstr r.headline),
           ("description", JsVal.jstr r.description),
           ("image_url", JsVal.jstr r.image_url)])] } := by
  have hf := find?_of_filter_singleton (fun x => x.is_active) store r h
  simp [postNews, postNewsOutcome, getActiveNews, hf, optProjToJs, projOf]

/-- C1 witness: a one-row store with the row active. -/
theorem postNews_single_active_witness :
    ([{ headline := "X", description := "Y", image_url := "Z.png",
        is_active := true }] : List NewsRow).filter (fun x => x.is_active)
      = [{ headline := "X", description := "Y", image_url := "Z.png",
           is_active := true }]
  ∧ postNews [{ headline := "X", description := "Y", image_url := "Z.png",
                is_active := true }] =
      { status := 200,
        body := JsVal.jobj [("getActiveNews", JsVal.jobj
          [("headline", JsVal.jstr "X"),
           ("description", JsVal.jstr "Y"),
           ("image_url", JsVal.jstr "Z.png")])] } :=
  ⟨by decide,
   postNews_single_active _
     { headline := "X", description := "Y", image_url := "Z.png",
       is_active := true } (by decide)⟩

/-- C2: for every store with zero active rows, POST /api/v1/news answers a
2xx success whose payload is null under the getActiveNews key, never an
error response. -/
theorem postNews_no_active (store : List NewsRow)
    (h : store.filter (fun x => x.is_active) = []) :
    postNews store =
      { status := 200, body := JsVal.jobj [("getActiveNews", JsVal.jnull)] }
  ∧ responseOk (postNews store) = true := by
  have hf := find?_of_filter_nil (fun x => x.is_active) store h
  constructor
  · simp [postNews, postNewsOutcome, getActiveNews, hf, optProjToJs]
  · simp [postNews, postNewsOutcome, responseOk, getActiveNews, hf]

/-- C2 witness: a store whose only row is inactive. -/
theorem postNews_no_active_witness :
    ([{ headline := "X", description := "Y", image_url := "Z.png",
        is_active := false }] : List NewsRow).filter (fun x => x.is_active) = []
  ∧ postNews [{ headline := "X", description := "Y", image_url := "Z.png",
                is_active := false }] =
      { status := 200, body := JsVal.jobj [("getActiveNews", JsVal.jnull)] }
  ∧ responseOk (postNews [{ headline := "X", description := "Y",
                            image_url := "Z.png", is_active := false }]) = true :=
  ⟨by decide,
   (postNews_no_active _ (by decide)).1,
   (postNews_no_active _ (by decide)).2⟩

/-- C7: every storage-layer fault makes the route answer 500 with the
fault's message under the error key; the handler consumes exactly one
storage outcome and its response never depends on any further outcome
(no server-side retry). -/
theorem postNews_storage_fault (msg : String)
    (rest rest2 : List (Except String (Option NewsProj))) :
    postNewsOutcome (Except.error msg)
      = { status := 500, body := JsVal.jobj [("error", JsVal.jstr msg)] }
  ∧ (postNewsAttempts (Except.error msg :: rest)).1
      = postNewsOutcome (Except.error msg)
  ∧ (postNewsAttempts (Except.error msg :: rest)).2 = 1
  ∧ (postNewsAttempts (Except.error msg :: rest)).1
      = (postNewsAttempts (Except.error msg :: rest2)).1 :=
  ⟨rfl, rfl, rfl, rfl⟩

/-- C9: the request handler leaves the store untouched on both the success
path and the fault path — the only storage operation it performs is the
findFirst read. -/
theorem postNews_pure_read (store : List NewsRow) (fault : Option String) :
    (postNewsSt store fault).2 = store := by
  cases fault <;> rfl

/-- C3: the static-fetch normalization is shape-agnostic — the enveloped
response and the bare camelCase response normalize to the same record with
headline H, description D, imageUrl U. -/
theorem normalizeStatic_shape_agnostic :
    normalizeStatic (JsVal.jobj [("getActiveNews", JsVal.jobj
        [("headline", JsVal.jstr "H"), ("description", JsVal.jstr "D"),
         ("image_url", JsVal.jstr "U")])])
      = { headline := JsVal.jstr "H", description := JsVal.jstr "D",
          imageUrl := JsVal.jstr "U" }
  ∧ normalizeStatic (JsVal.jobj
        [("headline", JsVal.jstr "H"), ("description", JsVal.jstr "D"),
         ("imageUrl", JsVal.jstr "U")])
      = { headline := JsVal.jstr "H", description := JsVal.jstr "D",
          imageUrl := JsVal.jstr "U" } :=
  ⟨rfl, rfl⟩

/-- C4 counterexample: a 500 response whose body is the object with "db
down" under the error key produces the error display "HTTP error! status:
500" — the thrown Error's template over the numeric status — not the
body's error field, which fetchStaticNews never reads. -/
theorem staticFetch_error_counterexample :
    (resolveStatic "now" (FetchOutcome.httpResponse
        { status := 500, body := JsVal.jobj [("error", JsVal.jstr "db down")] })
      (beginFetch initialClientState)).error = some (httpErrorMessage 500)
  ∧ (resolveStatic "now" (FetchOutcome.httpResponse
        { status := 500, body := JsVal.jobj [("error", JsVal.jstr "db down")] })
      (beginFetch initialClientState)).error ≠ some "db down" :=
  ⟨rfl, by decide⟩

/-- C4 amended: every fetch completing with a non-2xx status transitions to
the error state displaying "HTTP error! status: " followed by the numeric
status (the response body is ignored on this path), loading stops, and a
further timer tick has no effect (the interval is gone). -/
theorem staticFetch_http_error (resp : HttpResponse) (s : ClientState)
    (now : String) (h : responseOk resp = false) :
    (resolveStatic now (FetchOutcome.httpResponse resp) s).error
      = some (httpErrorMessage resp.status)
  ∧ (resolveStatic now (FetchOutcome.httpResponse resp) s).loading = false
  ∧ tick (resolveStatic now (FetchOutcome.httpResponse resp) s)
      = resolveStatic now (FetchOutcome.httpResponse resp) s := by
  refine ⟨?_, ?_, ?_⟩
  · simp [resolveStatic, h]
  · exact resolveStatic_loading_false now _ s
  · exact tick_of_not_loading _ (resolveStatic_loading_false now _ s)

/-- C4 amended, witness at the 500 / db down response. -/
theorem staticFetch_http_error_witness :
    responseOk { status := 500,
                 body := JsVal.jobj [("error", JsVal.jstr "db down")] } = false
  ∧ ((resolveStatic "now" (FetchOutcome.httpResponse
        { status := 500, body := JsVal.jobj [("error", JsVal.jstr "db down")] })
      (beginFetch initialClientState)).error = some (httpErrorMessage 500)
  ∧ (resolveStatic "now" (FetchOutcome.httpResponse
        { status := 500, body := JsVal.jobj [("error", JsVal.jstr "db down")] })
      (beginFetch initialClientState)).loading = false
  ∧ tick (resolveStatic "now" (FetchOutcome.httpResponse
        { status := 500, body := JsVal.jobj [("error", JsVal.jstr "db down")] })
      (beginFetch initialClientState))
      = resolveStatic "now" (FetchOutcome.httpResponse
        { status := 500, body := JsVal.jobj [("error", JsVal.jstr "db down")] })
      (beginFetch initialClientState)) :=
  ⟨by decide, staticFetch_http_error _ _ "now" (by decide)⟩

/-- C5 counterexample: after one rotation the displayed message is the
second list entry, and resolving the fetch leaves it there — resolution
does not reset the display to the first entry. -/
theorem loadingMessage_no_reset_counterexample :
    (resolveStatic "now"
        (FetchOutcome.httpResponse { status := 200, body := JsVal.jnull })
        (tick (beginFetch initialClientState))).loadingMessage
      = loadingMessageAt 1
  ∧ (resolveStatic "now"
        (FetchOutcome.httpResponse { status := 200, body := JsVal.jnull })
        (tick (beginFetch initialClientState))).loadingMessage
      ≠ loadingMessageAt 0 :=
  ⟨rfl, by decide⟩

/-- C5 amended: while a fetch is in flight each interval firing advances
the displayed message through the ordered list, wrapping from the last
entry back to the first; resolution (success or failure) clears loading so
the cycling stops (a further tick is a no-op); the display is reset to the
first entry at the start of the next fetch, not at resolution. -/
theorem loadingMessage_rotation (s : ClientState) (now : String)
    (o : FetchOutcome) (h : s.loading = true) :
    (tick s).loadingMessage
      = loadingMessageAt ((s.msgIdx + 1) % LOADING_MESSAGES.length)
  ∧ (s.msgIdx + 1 = LOADING_MESSAGES.length →
      (tick s).loadingMessage = loadingMessageAt 0)
  ∧ (resolveStatic now o s).loading = false
  ∧ tick (resolveStatic now o s) = resolveStatic now o s
  ∧ (resolveStatic now o s).loadingMessage = s.loadingMessage
  ∧ (beginFetch (resolveStatic now o s)).loadingMessage = loadingMessageAt 0 := by
  refine ⟨?_, ?_, resolveStatic_loading_false now o s,
          tick_of_not_loading _ (resolveStatic_loading_false now o s), ?_, ?_⟩
  · simp [tick, h]
  · intro hw
    simp [tick, h, hw]
  · cases o with
    | httpResponse resp =>
      by_cases hok : responseOk resp = true
      · simp [resolveStatic, hok]
      · simp [resolveStatic, hok]
    | transportError m => rfl
  · simp [beginFetch]

/-- C5 amended, witness one tick into a fetch started from the initial
state, resolved by a transport failure. -/
theorem loadingMessage_rotation_witness :
    (tick (beginFetch initialClientState)).loading = true
  ∧ (tick (tick (beginFetch initialClientState))).loadingMessage
      = loadingMessageAt
          (((tick (beginFetch initialClientState)).msgIdx + 1)
            % LOADING_MESSAGES.length)
  ∧ (resolveStatic "now" (FetchOutcome.transportError "boom")
       (tick (beginFetch initialClientState))).loading = false
  ∧ (beginFetch (resolveStatic "now" (FetchOutcome.transportError "boom")
       (tick (beginFetch initialClientState)))).loadingMessage
      = loadingMessageAt 0 :=
  ⟨by decide,
   (loadingMessage_rotation _ "now" (FetchOutcome.transportError "boom")
      (by decide)).1,
   (loadingMessage_rotation _ "now" (FetchOutcome.transportError "boom")
      (by decide)).2.2.1,
   (loadingMessage_rotation _ "now" (FetchOutcome.transportError "boom")
      (by decide)).2.2.2.2.2⟩

/-- C6 counterexample: on the enveloped response shape the two fetch
operations do not normalize alike — fetchDynamicNews reads headline
directly off the envelope (undefined), while fetchStaticNews unwraps the
getActiveNews key first. -/
theorem normalizeDynamic_no_envelope_counterexample :
    (normalizeDynamic (JsVal.jobj [("getActiveNews", JsVal.jobj
        [("headline", JsVal.jstr "H"), ("description", JsVal.jstr "D"),
         ("image_url", JsVal.jstr "U")])])).headline = JsVal.undef
  ∧ (normalizeStatic (JsVal.jobj [("getActiveNews", JsVal.jobj
        [("headline", JsVal.jstr "H"), ("description", JsVal.jstr "D"),
         ("image_url", JsVal.jstr "U")])])).headline = JsVal.jstr "H"
  ∧ (normalizeDynamic (JsVal.jobj [("getActiveNews", JsVal.jobj
        [("headline", JsVal.jstr "H"), ("description", JsVal.jstr "D"),
         ("image_url", JsVal.jstr "U")])])).headline
      ≠ (normalizeStatic (JsVal.jobj [("getActiveNews", JsVal.jobj
        [("headline", JsVal.jstr "H"), ("description", JsVal.jstr "D"),
         ("image_url", JsVal.jstr "U")])])).headline := by
  refine ⟨rfl, rfl, fun hc => ?_⟩
  have h1 : (JsVal.undef : JsVal) = JsVal.jstr "H" := hc
  exact JsVal.noConfusion h1

/-- C6 amended: fetchDynamicNews reads headline and description directly
off the raw response object (no probe for the envelope wrapper key) and
normalizes only the image field, checking the snake_case image_url key
before the camelCase imageUrl key; on a 2xx response it stores that record
and transitions to the loaded state with isStaticMode = false. -/
theorem dynamicFetch_success (resp : HttpResponse) (s : ClientState)
    (now : String) (h : responseOk resp = true) :
    normalizeDynamic resp.body
      = { headline := resp.body.getField "headline",
          description := resp.body.getField "description",
          imageUrl := jsOr (resp.body.getField "image_url")
                           (resp.body.getField "imageUrl") }
  ∧ (resolveDynamic now (FetchOutcome.httpResponse resp) s).newsData
      = some (normalizeDynamic resp.body)
  ∧ (resolveDynamic now (FetchOutcome.httpResponse resp) s).isStaticMode = false
  ∧ (resolveDynamic now (FetchOutcome.httpResponse resp) s).loading = false := by
  refine ⟨rfl, ?_, ?_, ?_⟩ <;> simp [resolveDynamic, h]

/-- C6 amended, witness at a 200 response carrying the bare webhook
shape. -/
theorem dynamicFetch_success_witness :
    responseOk { status := 200, body := JsVal.jobj [("headline", JsVal.jstr "A"), ("description", JsVal.jstr "B"), ("imageUrl", JsVal.jstr "C.png")] } = true
  ∧ (normalizeDynamic (JsVal.jobj [("headline", JsVal.jstr "A"), ("description", JsVal.jstr "B"), ("imageUrl", JsVal.jstr "C.png")])
      = { headline := (JsVal.jobj [("headline", JsVal.jstr "A"), ("description", JsVal.jstr "B"), ("imageUrl", JsVal.jstr "C.png")]).getField "headline",
          description := (JsVal.jobj [("headline", JsVal.jstr "A"), ("description", JsVal.jstr "B"), ("imageUrl", JsVal.jstr "C.png")]).getField "description",
          imageUrl := jsOr ((JsVal.jobj [("headline", JsVal.jstr "A"), ("description", JsVal.jstr "B"), ("imageUrl", JsVal.jstr "C.png")]).getField "image_url") ((JsVal.jobj [("headline", JsVal.jstr "A"), ("description", JsVal.jstr "B"), ("imageUrl", JsVal.jstr "C.png")]).getField "imageUrl") })
  ∧ (resolveDynamic "now" (FetchOutcome.httpResponse { status := 200, body := JsVal.jobj [("headline", JsVal.jstr "A"), ("description", JsVal.jstr "B"), ("imageUrl", JsVal.jstr "C.png")] }) initialClientState).newsData
      = some (normalizeDynamic (JsVal.jobj [("headline", JsVal.jstr "A"), ("description", JsVal.jstr "B"), ("imageUrl", JsVal.jstr "C.png")]))
  ∧ (resolveDynamic "now" (FetchOutcome.httpResponse { status := 200, body := JsVal.jobj [("headline", JsVal.jstr "A"), ("description", JsVal.jstr "B"), ("imageUrl", JsVal.jstr "C.png")] }) initialClientState).isStaticMode = false
  ∧ (resolveDynamic "now" (FetchOutcome.httpResponse { status := 200, body := JsVal.jobj [("headline", JsVal.jstr "A"), ("description", JsVal.jstr "B"), ("imageUrl", JsVal.jstr "C.png")] }) initialClientState).loading = false :=
  ⟨by decide,
   dynamicFetch_success
     { status := 200, body := JsVal.jobj [("headline", JsVal.jstr "A"), ("description", JsVal.jstr "B"), ("imageUrl", JsVal.jstr "C.png")] }
     initialClientState "now" (by decide)⟩

/-- C8: mounting the component issues exactly one static-fetch request and
enters the loading state; a failure of that request transitions to the
error state with loading cleared; and neither ticks nor resolutions ever
issue a request, so there is no automatic retry. -/
theorem mount_single_static_fetch (now msg : String) (s : ClientState)
    (o : FetchOutcome) :
    run initialClientState mountEvents
      = (beginFetch initialClientState, [FetchKind.staticFetch])
  ∧ (run initialClientState mountEvents).1.loading = true
  ∧ (resolveStatic now (FetchOutcome.transportError msg)
       (run initialClientState mountEvents).1).error = some msg
  ∧ (resolveStatic now (FetchOutcome.transportError msg)
       (run initialClientState mountEvents).1).loading = false
  ∧ (step s ClientEvent.timerTick).2 = []
  ∧ (step s (ClientEvent.staticResolved now o)).2 = []
  ∧ (step s (ClientEvent.dynamicResolved now o)).2 = [] :=
  ⟨rfl, rfl, rfl, rfl, rfl, rfl, rfl⟩

/-- C10: for the empty-state success body the unwrap expression falls back
to the envelope object itself, so the client stores a non-null record
whose three fields are all undefined, and each text block renders its
placeholder while the image block shows no img element. -/
theorem emptyState_fallback :
    jsOr ((JsVal.jobj [("getActiveNews", JsVal.jnull)]).getField "getActiveNews")
         (JsVal.jobj [("getActiveNews", JsVal.jnull)])
      = JsVal.jobj [("getActiveNews", JsVal.jnull)]
  ∧ normalizeStatic (JsVal.jobj [("getActiveNews", JsVal.jnull)])
      = { headline := JsVal.undef, description := JsVal.undef,
          imageUrl := JsVal.undef }
  ∧ (resolveStatic "now" (FetchOutcome.httpResponse
        { status := 200, body := JsVal.jobj [("getActiveNews", JsVal.jnull)] })
      (beginFetch initialClientState)).newsData
      = some { headline := JsVal.undef, description := JsVal.undef,
               imageUrl := JsVal.undef }
  ∧ renderedHeadline (resolveStatic "now" (FetchOutcome.httpResponse
        { status := 200, body := JsVal.jobj [("getActiveNews", JsVal.jnull)] })
      (beginFetch initialClientState)) = headlinePlaceholder
  ∧ renderedDescription (resolveStatic "now" (FetchOutcome.httpResponse
        { status := 200, body := JsVal.jobj [("getActiveNews", JsVal.jnull)] })
      (beginFetch initialClientState)) = descriptionPlaceholder
  ∧ showsImage (resolveStatic "now" (FetchOutcome.httpResponse
        { status := 200, body := JsVal.jobj [("getActiveNews", JsVal.jnull)] })
      (beginFetch initialClientState)) = false :=
  ⟨rfl, rfl, rfl, rfl, rfl, rfl⟩
